import Mathlib

/-!
# Verification of the COK Mall authentication core

Shallow embedding of the Spring-backend authentication subsystem:

* `User` entity with lockout bookkeeping
  (`features/auth/domain/User.java`),
* the JWT service — token creation, claim extraction, validation
  (`core/security/JwtService.java`),
* the bearer-token authentication filter
  (`core/security/JwtAuthenticationFilter.java`),
* the login and register use cases
  (`features/auth/application/LoginUseCase.java`,
   `features/auth/application/RegisterUseCase.java`),
* DTO bean validation (`features/auth/api/dto/RegisterRequest.java`) and
  the global exception handler
  (`core/exception/GlobalExceptionHandler.java`).

Times are integer milliseconds (Java `Date`).  BCrypt is abstracted as a
caller-supplied `pwMatches`/`encode` pair, since hashing internals do not
decide any property below.
-/

namespace CokMall

/-! ## User entity (`features/auth/domain/User.java`) -/

/-- The persisted `User` entity.  `failedLoginAttempts` is an `Int`
(Java `Integer`); `accountLocked` the lockout flag.  Audit timestamps and
JPA metadata are omitted: no verified property mentions them. -/
structure User where
  id : Int
  email : String
  passwordHash : String
  role : String
  failedLoginAttempts : Int
  accountLocked : Bool
  deriving Repr, DecidableEq

/-- Embeds `User.incrementFailedAttempts`: `failedLoginAttempts++`, then
`if (failedLoginAttempts >= 5) accountLocked = true`. -/
def User.incrementFailedAttempts (u : User) : User :=
  let n := u.failedLoginAttempts + 1
  { u with
    failedLoginAttempts := n
    accountLocked := if 5 ≤ n then true else u.accountLocked }

/-- Embeds `User.resetFailedAttempts`: counter back to 0 and the lock cleared. -/
def User.resetFailedAttempts (u : User) : User :=
  { u with failedLoginAttempts := 0, accountLocked := false }

/-- Embeds `UserRepository.unlockAccount` (`features/auth/domain/UserRepository.java`):
`UPDATE User u SET u.accountLocked = false, u.failedLoginAttempts = 0`. -/
def unlockAccount (u : User) : User :=
  { u with accountLocked := false, failedLoginAttempts := 0 }

/-! ## JWT service (`core/security/JwtService.java`) -/

/-- Modelled from the spec: `jwt.access-token-expiry` comes from the
application configuration file, which is not under the sources here; the
spec fixes it at 900 seconds (900000 ms). -/
def accessTokenExpiry : Int := 900000

/-- Modelled from the spec: `jwt.refresh-token-expiry`, 7 days
(604800000 ms), from the same configuration file. -/
def refreshTokenExpiry : Int := 604800000

/-- The claims payload of a token as built by `createToken`: the custom
claims map (`userId`, `email`, `role`, `type`), plus the registered
claims `sub`, `jti`, `iat`, `exp`.  Absent map entries are `none`
(Java `Claims.get` returns `null`). -/
structure JwtClaims where
  userId : Option Int
  email : Option String
  role : Option String
  type : Option String
  sub : Option String
  jti : String
  iat : Int
  exp : Int
  deriving Repr, DecidableEq

/-- A compact signed JWT: its payload plus the key it was signed with
(signature verification succeeds exactly for the signing key — HS256 is
symmetric). -/
structure JwtToken where
  claims : JwtClaims
  signedWithKey : String
  deriving Repr, DecidableEq

/-- What arrives on the wire as a token string: either not a JWT at all
(structurally malformed) or a signed JWT. -/
inductive Wire where
  | garbage (raw : String)
  | jwt (t : JwtToken)
  deriving Repr, DecidableEq

/-- The custom claims map handed to `createToken` by the two
`generate*Token` methods. -/
structure CustomClaims where
  userId : Option Int
  email : Option String
  role : Option String
  type : Option String
  deriving Repr, DecidableEq

/-- Embeds `JwtService.createToken`: sets the custom claims, subject, a unique
token id, issued-at `now` and expiration `now + expiryMillis`, and signs
with the server key. -/
def createToken (key : String) (c : CustomClaims) (subject : String)
    (expiryMillis : Int) (now : Int) (jti : String) : JwtToken :=
  { claims :=
      { userId := c.userId, email := c.email, role := c.role, type := c.type
        sub := some subject, jti := jti, iat := now, exp := now + expiryMillis }
    signedWithKey := key }

/-- Embeds `JwtService.generateAccessToken`: claims
`{userId, email, role, type: "access"}`, subject = email, access expiry. -/
def generateAccessToken (key : String) (userId : Int) (email role : String)
    (now : Int) (jti : String) : JwtToken :=
  createToken key
    { userId := some userId, email := some email, role := some role
      type := some "access" }
    email accessTokenExpiry now jti

/-- Embeds `JwtService.generateRefreshToken`: claims
`{userId, email, type: "refresh"}` — no role — subject = email, refresh
expiry. -/
def generateRefreshToken (key : String) (userId : Int) (email : String)
    (now : Int) (jti : String) : JwtToken :=
  createToken key
    { userId := some userId, email := some email, role := none
      type := some "refresh" }
    email refreshTokenExpiry now jti

/-- Embeds `JwtService.extractAllClaims`: parses and verifies the token, mapping
the jjwt exceptions to `UnauthorizedException` messages exactly as the
catch blocks do ("Invalid token format", "Invalid token signature",
"Token has expired").  The parse itself is the jjwt library (not part of
this repository); per RFC 7519 §4.1.4, which jjwt implements with zero
clock skew, a token is rejected as expired on or after its `exp` time,
i.e. exactly when `now ≥ exp`. -/
def extractAllClaims (key : String) (now : Int) (w : Wire) :
    Except String JwtClaims :=
  match w with
  | .garbage _ => .error "Invalid token format"
  | .jwt t =>
    if t.signedWithKey ≠ key then .error "Invalid token signature"
    else if t.claims.exp ≤ now then .error "Token has expired"
    else .ok t.claims

/-- Embeds `JwtService.extractEmail`: the subject claim. -/
def extractEmail (key : String) (now : Int) (w : Wire) :
    Except String (Option String) :=
  (extractAllClaims key now w).map (·.sub)

/-- Embeds `JwtService.extractUserId`. -/
def extractUserId (key : String) (now : Int) (w : Wire) :
    Except String (Option Int) :=
  (extractAllClaims key now w).map (·.userId)

/-- Embeds `JwtService.extractRole`. -/
def extractRole (key : String) (now : Int) (w : Wire) :
    Except String (Option String) :=
  (extractAllClaims key now w).map (·.role)

/-- Embeds `JwtService.extractTokenType`. -/
def extractTokenType (key : String) (now : Int) (w : Wire) :
    Except String (Option String) :=
  (extractAllClaims key now w).map (·.type)

/-- Embeds `JwtService.extractExpiration`. -/
def extractExpiration (key : String) (now : Int) (w : Wire) :
    Except String Int :=
  (extractAllClaims key now w).map (·.exp)

/-- Embeds `JwtService.isTokenExpired`:
`extractExpiration(token).before(new Date())`; an exception thrown while
extracting propagates. -/
def isTokenExpired (key : String) (now : Int) (w : Wire) :
    Except String Bool :=
  (extractExpiration key now w).map (fun e => e < now)

/-- Embeds `JwtService.validateToken(String)`: `!isTokenExpired(token)`, with
every exception caught and turned into `false`. -/
def validateToken (key : String) (now : Int) (w : Wire) : Bool :=
  match isTokenExpired key now w with
  | .ok b => !b
  | .error _ => false

/-! ## Authentication filter (`core/security/JwtAuthenticationFilter.java`) -/

/-- The `Authorization` header of an incoming request: absent, present
but not a `Bearer` scheme, or a bearer token. -/
inductive AuthHeader where
  | missing
  | notBearer (value : String)
  | bearer (w : Wire)
  deriving Repr, DecidableEq

/-- Outcome of `doFilterInternal` on a request whose security context is
empty (a fresh request): the authentication placed in the security
context (principal email and granted authority string), whether the
filter chain was continued, and whether the filter raised. -/
structure FilterOutcome where
  authentication : Option (String × String)
  chainContinued : Bool
  raised : Bool
  deriving Repr, DecidableEq

/-- The `try` body of `doFilterInternal`: extract the email, and if it is
non-null and `validateToken` succeeds, build the authentication token
whose single authority is `"ROLE_" + role` (Java string concatenation
renders an absent role claim as `"null"`).  A thrown
`UnauthorizedException` is the `.error` case, propagated from each
extraction in sequence exactly as the Java exception would. -/
def doFilterBody (key : String) (now : Int) (w : Wire) :
    Except String (Option (String × String)) :=
  match extractEmail key now w with
  | .error m => .error m
  | .ok none => .ok none
  | .ok (some e) =>
    if validateToken key now w then
      match extractUserId key now w with
      | .error m => .error m
      | .ok _userId =>
        match extractRole key now w with
        | .error m => .error m
        | .ok role =>
          .ok (some (e, "ROLE_" ++ (match role with | some r => r | none => "null")))
    else
      .ok none

/-- Embeds `JwtAuthenticationFilter.doFilterInternal`: skip non-bearer requests;
otherwise run the body with both catch blocks swallowing any exception
(no authentication is set), and continue the chain in every case. -/
def doFilterInternal (key : String) (now : Int) (h : AuthHeader) :
    FilterOutcome :=
  match h with
  | .missing => { authentication := none, chainContinued := true, raised := false }
  | .notBearer _ => { authentication := none, chainContinued := true, raised := false }
  | .bearer w =>
    match doFilterBody key now w with
    | .ok auth => { authentication := auth, chainContinued := true, raised := false }
    | .error _ => { authentication := none, chainContinued := true, raised := false }

/-! ## Validation patterns
(`RegisterUseCase.java`, `RegisterRequest.java`) -/

/-- Embeds `[@$!%*?&]` — the special-character class of `PASSWORD_PATTERN` (the
same class appears in the DTO `@Pattern`). -/
def passwordSpecialChar (c : Char) : Bool :=
  c = '@' || c = '$' || c = '!' || c = '%' || c = '*' || c = '?' || c = '&'

/-- Embeds `[A-Za-z\d@$!%*?&]` — the character class the whole password must be
drawn from in `PASSWORD_PATTERN`. -/
def passwordAllowedChar (c : Char) : Bool :=
  c.isLower || c.isUpper || c.isDigit || passwordSpecialChar c

/-- Embeds `PASSWORD_PATTERN =
`^(?=.*[a-z])(?=.*[A-Z])(?=.*\d)(?=.*[@$!%*?&])[A-Za-z\d@$!%*?&]{8,}$`:
at least 8 characters, every character from the allowed class, and the
four anchored lookaheads requiring one lowercase, one uppercase, one
digit and one special character. -/
def passwordPatternMatches (p : String) : Bool :=
  decide (8 ≤ p.data.length) && p.data.all passwordAllowedChar &&
  p.data.any Char.isLower && p.data.any Char.isUpper &&
  p.data.any Char.isDigit && p.data.any passwordSpecialChar

/-- Embeds `[A-Za-z0-9+_.-]` — local-part class of `EMAIL_PATTERN`. -/
def emailLocalChar (c : Char) : Bool :=
  c.isLower || c.isUpper || c.isDigit || c = '+' || c = '_' || c = '.' || c = '-'

/-- Embeds `[A-Za-z0-9.-]` — domain class of `EMAIL_PATTERN`. -/
def emailDomainChar (c : Char) : Bool :=
  c.isLower || c.isUpper || c.isDigit || c = '.' || c = '-'

/-- Splits a list at the LAST occurrence of `sep`:
`lastSplit sep l = some (pre, suf)` with `l = pre ++ sep :: suf` and no
`sep` in `suf`; `none` when `sep` does not occur. -/
def lastSplit (sep : Char) : List Char → Option (List Char × List Char)
  | [] => none
  | c :: cs =>
    match lastSplit sep cs with
    | some (pre, suf) => some (c :: pre, suf)
    | none => if c = sep then some ([], cs) else none

/-- Embeds `EMAIL_PATTERN = ^[A-Za-z0-9+_.-]+@[A-Za-z0-9.-]+\.[A-Za-z]{2,}$`.
Neither character class contains `@`, so a match splits the string at
its unique `@`; the trailing `[A-Za-z]{2,}` contains no dot, so the TLD
is everything after the LAST dot of the domain part — the decomposition
below is exactly the set of strings the regex accepts. -/
def emailPatternMatches (s : String) : Bool :=
  match lastSplit '@' s.data with
  | none => false
  | some (lp, dom) =>
    !lp.isEmpty && lp.all emailLocalChar &&
    (match lastSplit '.' dom with
     | none => false
     | some (dpre, tld) =>
       !dpre.isEmpty && dpre.all emailDomainChar &&
       decide (2 ≤ tld.length) && tld.all Char.isAlpha)

/-- Embeds `@NotBlank`: the string contains at least one non-whitespace
character. -/
def notBlank (s : String) : Bool :=
  s.data.any (fun c => !c.isWhitespace)

/-- Modelled from the spec: the DTO `@Email` constraint is enforced by
the Hibernate Validator library, whose source is not in this repository.
Its documented behaviour is lenient — `local@domain` with a non-empty
local part and a non-empty domain part, with NO requirement of a
top-level domain (so `alice@localhost` is accepted).  Conservative
model: split at the last `@`, local part non-empty over the same
characters as `EMAIL_PATTERN`'s local class, domain non-empty over
letters, digits, dots and hyphens. -/
def beanEmailValid (s : String) : Bool :=
  match lastSplit '@' s.data with
  | none => false
  | some (lp, dom) =>
    !lp.isEmpty && lp.all emailLocalChar && !dom.isEmpty && dom.all emailDomainChar

/-- Bean validation of `RegisterRequest` under `@Valid`: email
`@NotBlank @Email`; password `@NotBlank @Size(min=8) @Pattern(...)` with
the same regex as `PASSWORD_PATTERN`. -/
def registerRequestValid (email password : String) : Bool :=
  notBlank email && beanEmailValid email &&
  notBlank password && decide (8 ≤ password.data.length) &&
  passwordPatternMatches password

/-! ## Use cases (`LoginUseCase.java`, `RegisterUseCase.java`) -/

/-- The user table, keyed by the unique email column
(`findByEmail` / the unique index `idx_email`). -/
abbrev Store := String → Option User

/-- Embeds `userRepository.save(user)`: the row for the user's email now holds
the updated entity. -/
def saveUser (s : Store) (u : User) : Store :=
  fun e => if e = u.email then some u else s e

/-- The empty user table. -/
def emptyStore : Store := fun _ => none

/-- The pair a successful use case returns (`AuthToken`). -/
structure AuthTokenPair where
  accessToken : JwtToken
  refreshToken : JwtToken
  deriving Repr, DecidableEq

/-- Embeds `LoginUseCase.execute`.  `pwMatches` is BCrypt
`passwordEncoder.matches` (abstracted); `jti1`/`jti2` the fresh token
ids; returns the updated store and either the thrown
`UnauthorizedException` message or the token pair.
Branches in source order: user not found; account locked; password
mismatch (increment + save); success (reset + save + tokens). -/
def loginExecute (pwMatches : String → String → Bool) (key : String)
    (now : Int) (jti1 jti2 : String) (store : Store)
    (email password : String) : Store × Except String AuthTokenPair :=
  match store email with
  | none => (store, .error "Invalid email or password")
  | some user =>
    if user.accountLocked then
      (store, .error "Account is locked due to too many failed login attempts. Please contact support.")
    else if !(pwMatches password user.passwordHash) then
      let u := user.incrementFailedAttempts
      (saveUser store u, .error "Invalid email or password")
    else
      let u := user.resetFailedAttempts
      (saveUser store u,
       .ok { accessToken := generateAccessToken key u.id u.email u.role now jti1
             refreshToken := generateRefreshToken key u.id u.email now jti2 })

/-- Embeds `RegisterUseCase.execute`.  `encode` is BCrypt
`passwordEncoder.encode` (abstracted); `newId` the identity column value
for the inserted row.  Branches in source order: email format, password
strength, duplicate email, then create/save/issue tokens. -/
def registerExecute (encode : String → String) (key : String) (now : Int)
    (newId : Int) (jti1 jti2 : String) (store : Store)
    (email password : String) : Store × Except String AuthTokenPair :=
  if !(emailPatternMatches email) then
    (store, .error "Invalid email format")
  else if !(passwordPatternMatches password) then
    (store, .error "Password must be at least 8 characters and contain uppercase, lowercase, digit, and special character")
  else if (store email).isSome then
    (store, .error "Email already registered")
  else
    let user : User :=
      { id := newId, email := email, passwordHash := encode password
        role := "USER", failedLoginAttempts := 0, accountLocked := false }
    (saveUser store user,
     .ok { accessToken := generateAccessToken key user.id user.email user.role now jti1
           refreshToken := generateRefreshToken key user.id user.email now jti2 })

/-! ## HTTP layer (`AuthController.java`, `GlobalExceptionHandler.java`) -/

/-- Embeds `GlobalExceptionHandler.handleUnauthorized`: an
`UnauthorizedException` becomes HTTP 401 with the exception's message in
the envelope. -/
def handleUnauthorized (msg : String) : Nat × String :=
  (401, msg)

/-- The HTTP status and message a call to `POST /api/auth/register`
yields: `@Valid` bean validation failure is handled by
`handleValidationErrors` (400, "Validation failed"); an
`UnauthorizedException` from the use case by `handleUnauthorized` (401);
success returns 200. -/
def registerHttp (encode : String → String) (key : String) (now : Int)
    (newId : Int) (jti1 jti2 : String) (store : Store)
    (email password : String) : Store × Nat × String :=
  if !(registerRequestValid email password) then
    (store, 400, "Validation failed")
  else
    match registerExecute encode key now newId jti1 jti2 store email password with
    | (s, .error m) => (s, handleUnauthorized m)
    | (s, .ok _) => (s, 200, "Registration successful")

/-- The HTTP error a call to `POST /api/auth/login` yields when the use
case throws (`none` on success). -/
def loginHttpError (pwMatches : String → String → Bool) (key : String)
    (now : Int) (jti1 jti2 : String) (store : Store)
    (email password : String) : Option (Nat × String) :=
  match (loginExecute pwMatches key now jti1 jti2 store email password).2 with
  | .error m => some (handleUnauthorized m)
  | .ok _ => none

/-- A sequence of login attempts (email, password), folded over the
store; this is the only way the store changes through `LoginUseCase`. -/
def loginMany (pwMatches : String → String → Bool) (key : String)
    (now : Int) (jti1 jti2 : String) (store : Store)
    (attempts : List (String × String)) : Store :=
  attempts.foldl
    (fun st ep => (loginExecute pwMatches key now jti1 jti2 st ep.1 ep.2).1)
    store

/-! ## Invariants and the operation machine -/

/-- Well-formedness of the user table: the row stored under an email
belongs to that email (the unique `idx_email` column is the key). -/
def StoreWf (s : Store) : Prop :=
  ∀ e u, s e = some u → u.email = e

/-- The lockout bookkeeping invariant: every stored account has
`0 ≤ failedLoginAttempts ≤ 5` and is locked exactly when the counter
equals 5. -/
def LockoutInv (s : Store) : Prop :=
  ∀ e u, s e = some u →
    0 ≤ u.failedLoginAttempts ∧ u.failedLoginAttempts ≤ 5 ∧
    (u.accountLocked = true ↔ u.failedLoginAttempts = 5)

/-- An operation of the auth HTTP surface: a register call or a login
call (with the fresh identity value and token ids each call draws). -/
inductive AuthOp where
  | register (newId : Int) (jti1 jti2 : String) (email password : String)
  | login (jti1 jti2 : String) (email password : String)
  deriving Repr

/-- Effect of one auth operation on the user table. -/
def applyAuthOp (pwMatches : String → String → Bool)
    (encode : String → String) (key : String) (now : Int)
    (s : Store) : AuthOp → Store
  | .register newId j1 j2 e p => (registerHttp encode key now newId j1 j2 s e p).1
  | .login j1 j2 e p => (loginExecute pwMatches key now j1 j2 s e p).1

/-- The user table after a sequence of register/login operations. -/
def runAuthOps (pwMatches : String → String → Bool)
    (encode : String → String) (key : String) (now : Int)
    (s : Store) (ops : List AuthOp) : Store :=
  ops.foldl (applyAuthOp pwMatches encode key now) s

/-- The password-strength predicate as the spec words it (for comparison
with `passwordPatternMatches`, which is translated from the code):
at least 8 characters and at least one lowercase letter, one uppercase
letter, one digit and one character of the special set — with no
restriction on what the remaining characters may be. -/
def specValidateStrength (p : String) : Bool :=
  decide (8 ≤ p.data.length) && p.data.any Char.isLower &&
  p.data.any Char.isUpper && p.data.any Char.isDigit &&
  p.data.any passwordSpecialChar

/-! ## Helper lemmas -/

@[simp]
theorem incrementFailedAttempts_email (u : User) :
    u.incrementFailedAttempts.email = u.email := rfl

@[simp]
theorem incrementFailedAttempts_passwordHash (u : User) :
    u.incrementFailedAttempts.passwordHash = u.passwordHash := rfl

@[simp]
theorem incrementFailedAttempts_counter (u : User) :
    u.incrementFailedAttempts.failedLoginAttempts = u.failedLoginAttempts + 1 := rfl

theorem incrementFailedAttempts_locked (u : User) :
    u.incrementFailedAttempts.accountLocked =
      if 5 ≤ u.failedLoginAttempts + 1 then true else u.accountLocked := rfl

@[simp]
theorem saveUser_self (s : Store) (u : User) : saveUser s u u.email = some u := by
  simp [saveUser]

theorem saveUser_other (s : Store) (u : User) (e : String) (h : e ≠ u.email) :
    saveUser s u e = s e := by
  simp [saveUser, h]

theorem loginExecute_not_found (pwMatches : String → String → Bool)
    (key : String) (now : Int) (j1 j2 : String) (s : Store) (e pw : String)
    (h : s e = none) :
    loginExecute pwMatches key now j1 j2 s e pw =
      (s, .error "Invalid email or password") := by
  simp [loginExecute, h]

theorem loginExecute_locked (pwMatches : String → String → Bool)
    (key : String) (now : Int) (j1 j2 : String) (s : Store) (e pw : String)
    (u : User) (h : s e = some u) (hl : u.accountLocked = true) :
    loginExecute pwMatches key now j1 j2 s e pw =
      (s, .error "Account is locked due to too many failed login attempts. Please contact support.") := by
  simp [loginExecute, h, hl]

theorem loginExecute_wrong (pwMatches : String → String → Bool)
    (key : String) (now : Int) (j1 j2 : String) (s : Store) (e pw : String)
    (u : User) (h : s e = some u) (hl : u.accountLocked = false)
    (hm : pwMatches pw u.passwordHash = false) :
    loginExecute pwMatches key now j1 j2 s e pw =
      (saveUser s u.incrementFailedAttempts, .error "Invalid email or password") := by
  simp [loginExecute, h, hl, hm]

theorem loginExecute_right (pwMatches : String → String → Bool)
    (key : String) (now : Int) (j1 j2 : String) (s : Store) (e pw : String)
    (u : User) (h : s e = some u) (hl : u.accountLocked = false)
    (hm : pwMatches pw u.passwordHash = true) :
    (loginExecute pwMatches key now j1 j2 s e pw).1 =
      saveUser s u.resetFailedAttempts := by
  simp [loginExecute, h, hl, hm]

/-- A login attempt leaves every row other than the attempted email
untouched (well-formedness gives that the saved row sits under the
attempted email). -/
theorem loginExecute_fst_other (pwMatches : String → String → Bool)
    (key : String) (now : Int) (j1 j2 : String) (s : Store)
    (e target pw : String) (hwf : StoreWf s) (hne : target ≠ e) :
    (loginExecute pwMatches key now j1 j2 s e pw).1 target = s target := by
  cases hfind : s e with
  | none => rw [loginExecute_not_found _ _ _ _ _ _ _ _ hfind]
  | some u =>
    have he : u.email = e := hwf e u hfind
    cases hl : u.accountLocked with
    | true => rw [loginExecute_locked _ _ _ _ _ _ _ _ _ hfind hl]
    | false =>
      cases hm : pwMatches pw u.passwordHash with
      | false =>
        rw [loginExecute_wrong _ _ _ _ _ _ _ _ _ hfind hl hm]
        exact saveUser_other _ _ _ (by simpa [he] using hne)
      | true =>
        rw [loginExecute_right _ _ _ _ _ _ _ _ _ hfind hl hm]
        exact saveUser_other _ _ _ (by simpa [User.resetFailedAttempts, he] using hne)

/-- A login attempt preserves table well-formedness. -/
theorem loginExecute_wf (pwMatches : String → String → Bool)
    (key : String) (now : Int) (j1 j2 : String) (s : Store) (e pw : String)
    (hwf : StoreWf s) :
    StoreWf (loginExecute pwMatches key now j1 j2 s e pw).1 := by
  cases hfind : s e with
  | none => rw [loginExecute_not_found _ _ _ _ _ _ _ _ hfind]; exact hwf
  | some u =>
    have he : u.email = e := hwf e u hfind
    cases hl : u.accountLocked with
    | true => rw [loginExecute_locked _ _ _ _ _ _ _ _ _ hfind hl]; exact hwf
    | false =>
      cases hm : pwMatches pw u.passwordHash with
      | false =>
        rw [loginExecute_wrong _ _ _ _ _ _ _ _ _ hfind hl hm]
        intro e' u' h'
        simp only [saveUser] at h'
        split at h'
        · next heq =>
          cases h'
          simpa using heq.symm
        · exact hwf e' u' h'
      | true =>
        rw [loginExecute_right _ _ _ _ _ _ _ _ _ hfind hl hm]
        intro e' u' h'
        simp only [saveUser] at h'
        split at h'
        · next heq =>
          cases h'
          simpa [User.resetFailedAttempts] using heq.symm
        · exact hwf e' u' h'

theorem StoreWf_emptyStore : StoreWf emptyStore := by
  intro e u h
  simp [emptyStore] at h

theorem StoreWf_saveUser (s : Store) (u : User) (hwf : StoreWf s) :
    StoreWf (saveUser s u) := by
  intro e' u' h'
  simp only [saveUser] at h'
  split at h'
  · next heq => cases h'; exact heq.symm
  · exact hwf e' u' h'

theorem loginMany_nil (pwMatches : String → String → Bool) (key : String)
    (now : Int) (j1 j2 : String) (s : Store) :
    loginMany pwMatches key now j1 j2 s [] = s := rfl

theorem loginMany_cons (pwMatches : String → String → Bool) (key : String)
    (now : Int) (j1 j2 : String) (s : Store) (e pw : String)
    (rest : List (String × String)) :
    loginMany pwMatches key now j1 j2 s ((e, pw) :: rest) =
      loginMany pwMatches key now j1 j2
        (loginExecute pwMatches key now j1 j2 s e pw).1 rest := rfl

/-- A locked account's row survives ANY sequence of login attempts
completely unchanged. -/
theorem loginMany_locked_fixed (pwMatches : String → String → Bool)
    (key : String) (now : Int) (j1 j2 : String) :
    ∀ (attempts : List (String × String)) (s : Store) (u : User) (e : String),
      StoreWf s → s e = some u → u.accountLocked = true →
      loginMany pwMatches key now j1 j2 s attempts e = some u := by
  intro attempts
  induction attempts with
  | nil => intro s u e _ hfind _; simpa [loginMany_nil] using hfind
  | cons a rest ih =>
    intro s u e hwf hfind hl
    obtain ⟨e', p'⟩ := a
    rw [loginMany_cons]
    by_cases heq : e = e'
    · subst heq
      rw [loginExecute_locked _ _ _ _ _ _ _ _ _ hfind hl]
      exact ih s u e hwf hfind hl
    · have h1 : (loginExecute pwMatches key now j1 j2 s e' p').1 e = s e :=
        loginExecute_fst_other _ _ _ _ _ _ _ _ _ hwf heq
      exact ih _ u e (loginExecute_wf _ _ _ _ _ _ _ _ hwf) (h1.trans hfind) hl

/-- A login attempt preserves the lockout invariant. -/
theorem loginExecute_inv (pwMatches : String → String → Bool)
    (key : String) (now : Int) (j1 j2 : String) (s : Store) (e pw : String)
    (_hwf : StoreWf s) (hinv : LockoutInv s) :
    LockoutInv (loginExecute pwMatches key now j1 j2 s e pw).1 := by
  cases hfind : s e with
  | none => rw [loginExecute_not_found _ _ _ _ _ _ _ _ hfind]; exact hinv
  | some u =>
    cases hl : u.accountLocked with
    | true => rw [loginExecute_locked _ _ _ _ _ _ _ _ _ hfind hl]; exact hinv
    | false =>
      cases hm : pwMatches pw u.passwordHash with
      | false =>
        rw [loginExecute_wrong _ _ _ _ _ _ _ _ _ hfind hl hm]
        intro e' u' h'
        simp only [saveUser] at h'
        split at h'
        · cases h'
          obtain ⟨hc0, hc5, hiff⟩ := hinv e u hfind
          have hne5 : u.failedLoginAttempts ≠ 5 := by
            intro h
            rw [hiff.mpr h] at hl
            exact Bool.true_eq_false.mp hl
          refine ⟨by simp; omega, by simp; omega, ?_⟩
          rw [incrementFailedAttempts_locked, incrementFailedAttempts_counter, hl]
          by_cases h5 : 5 ≤ u.failedLoginAttempts + 1
          · simp [h5]; omega
          · simp [h5]; omega
        · exact hinv e' u' h'
      | true =>
        rw [loginExecute_right _ _ _ _ _ _ _ _ _ hfind hl hm]
        intro e' u' h'
        simp only [saveUser] at h'
        split at h'
        · cases h'
          simp [User.resetFailedAttempts]
        · exact hinv e' u' h'

/-- The register endpoint either rejects the request (table unchanged)
or defers to the use case. -/
theorem registerHttp_fst (encode : String → String) (key : String)
    (now : Int) (newId : Int) (j1 j2 : String) (s : Store) (e pw : String) :
    (registerHttp encode key now newId j1 j2 s e pw).1 =
      if registerRequestValid e pw
      then (registerExecute encode key now newId j1 j2 s e pw).1
      else s := by
  cases hv : registerRequestValid e pw with
  | false => simp [registerHttp, hv]
  | true =>
    simp only [registerHttp, hv, Bool.not_true, Bool.false_eq_true, if_false, if_true]
    obtain ⟨s', r⟩ := registerExecute encode key now newId j1 j2 s e pw
    cases r <;> rfl

/-- Registration preserves well-formedness and the lockout invariant
(a created account starts at counter 0, unlocked). -/
theorem registerExecute_wf_inv (encode : String → String) (key : String)
    (now : Int) (newId : Int) (j1 j2 : String) (s : Store) (e pw : String)
    (hwf : StoreWf s) (hinv : LockoutInv s) :
    StoreWf (registerExecute encode key now newId j1 j2 s e pw).1 ∧
    LockoutInv (registerExecute encode key now newId j1 j2 s e pw).1 := by
  unfold registerExecute
  split
  · exact ⟨hwf, hinv⟩
  split
  · exact ⟨hwf, hinv⟩
  split
  · exact ⟨hwf, hinv⟩
  constructor
  · intro e' u' h'
    simp only [saveUser] at h'
    split at h'
    · next heq => cases h'; simpa using heq.symm
    · exact hwf e' u' h'
  · intro e' u' h'
    simp only [saveUser] at h'
    split at h'
    · cases h'; simp
    · exact hinv e' u' h'

theorem applyAuthOp_wf_inv (pwMatches : String → String → Bool)
    (encode : String → String) (key : String) (now : Int) (s : Store)
    (op : AuthOp) (hwf : StoreWf s) (hinv : LockoutInv s) :
    StoreWf (applyAuthOp pwMatches encode key now s op) ∧
    LockoutInv (applyAuthOp pwMatches encode key now s op) := by
  cases op with
  | register newId j1 j2 e p =>
    simp only [applyAuthOp, registerHttp_fst]
    split
    · exact registerExecute_wf_inv _ _ _ _ _ _ _ _ _ hwf hinv
    · exact ⟨hwf, hinv⟩
  | login j1 j2 e p =>
    exact ⟨loginExecute_wf _ _ _ _ _ _ _ _ hwf,
           loginExecute_inv _ _ _ _ _ _ _ _ hwf hinv⟩

theorem runAuthOps_wf_inv (pwMatches : String → String → Bool)
    (encode : String → String) (key : String) (now : Int) :
    ∀ (ops : List AuthOp) (s : Store), StoreWf s → LockoutInv s →
      StoreWf (runAuthOps pwMatches encode key now s ops) ∧
      LockoutInv (runAuthOps pwMatches encode key now s ops) := by
  intro ops
  induction ops with
  | nil => intro s hwf hinv; exact ⟨hwf, hinv⟩
  | cons op rest ih =>
    intro s hwf hinv
    obtain ⟨hwf', hinv'⟩ := applyAuthOp_wf_inv pwMatches encode key now s op hwf hinv
    exact ih _ hwf' hinv'

/-- After `n` consecutive wrong-password attempts against an unlocked
account whose counter can still absorb them, the counter has grown by
exactly `n` and the account is locked exactly when it has hit 5. -/
theorem loginMany_replicate_wrong (pwMatches : String → String → Bool)
    (key : String) (now : Int) (j1 j2 : String) (e pw : String) :
    ∀ (n : ℕ) (s : Store) (u : User), s e = some u → u.email = e →
      u.accountLocked = false → pwMatches pw u.passwordHash = false →
      u.failedLoginAttempts < 5 → u.failedLoginAttempts + n ≤ 5 →
      ∃ v, loginMany pwMatches key now j1 j2 s (List.replicate n (e, pw)) e = some v ∧
        v.failedLoginAttempts = u.failedLoginAttempts + n ∧
        (v.accountLocked = true ↔ v.failedLoginAttempts = 5) := by
  intro n
  induction n with
  | zero =>
    intro s u hfind _ hl _ hlt _
    refine ⟨u, by simpa [loginMany_nil] using hfind, by simp, ?_⟩
    rw [hl]
    constructor
    · intro h; exact absurd h (Bool.false_ne_true)
    · intro h; omega
  | succ n ih =>
    intro s u hfind hemail hl hm hlt hle
    rw [List.replicate_succ, loginMany_cons,
        loginExecute_wrong _ _ _ _ _ _ _ _ _ hfind hl hm]
    have hfind1 : saveUser s u.incrementFailedAttempts e = some u.incrementFailedAttempts := by
      have : u.incrementFailedAttempts.email = e := by simpa using hemail
      rw [← this]; exact saveUser_self _ _
    by_cases h5 : 5 ≤ u.failedLoginAttempts + 1
    · have hn : n = 0 := by omega
      subst hn
      refine ⟨u.incrementFailedAttempts,
        by simpa [loginMany_nil] using hfind1,
        by rw [incrementFailedAttempts_counter]; push_cast; omega, ?_⟩
      rw [incrementFailedAttempts_locked, incrementFailedAttempts_counter, if_pos h5]
      simp
      omega
    · have hl1 : u.incrementFailedAttempts.accountLocked = false := by
        rw [incrementFailedAttempts_locked, if_neg h5, hl]
      obtain ⟨v, hv, hvc, hviff⟩ := ih (saveUser s u.incrementFailedAttempts)
        u.incrementFailedAttempts hfind1 (by simpa using hemail) hl1
        (by simpa using hm) (by simp; omega) (by simp; omega)
      refine ⟨v, hv, ?_, hviff⟩
      rw [hvc]
      simp
      ring

theorem LockoutInv_emptyStore : LockoutInv emptyStore := by
  intro e u h
  simp [emptyStore] at h

theorem extractAllClaims_badsig (key : String) (v : JwtToken) (m : Int)
    (hs : v.signedWithKey ≠ key) :
    extractAllClaims key m (.jwt v) = .error "Invalid token signature" := by
  simp [extractAllClaims, hs]

theorem extractAllClaims_expired (key : String) (v : JwtToken) (m : Int)
    (hs : v.signedWithKey = key) (hle : v.claims.exp ≤ m) :
    extractAllClaims key m (.jwt v) = .error "Token has expired" := by
  simp [extractAllClaims, hs, hle]

theorem extractAllClaims_live (key : String) (v : JwtToken) (m : Int)
    (hs : v.signedWithKey = key) (hlt : m < v.claims.exp) :
    extractAllClaims key m (.jwt v) = .ok v.claims := by
  simp [extractAllClaims, hs]
  omega

theorem extractEmail_of_ok (key : String) (m : Int) (w : Wire) (c : JwtClaims)
    (h : extractAllClaims key m w = .ok c) :
    extractEmail key m w = .ok c.sub := by
  unfold extractEmail
  rw [h]
  rfl

theorem extractUserId_of_ok (key : String) (m : Int) (w : Wire) (c : JwtClaims)
    (h : extractAllClaims key m w = .ok c) :
    extractUserId key m w = .ok c.userId := by
  unfold extractUserId
  rw [h]
  rfl

theorem extractRole_of_ok (key : String) (m : Int) (w : Wire) (c : JwtClaims)
    (h : extractAllClaims key m w = .ok c) :
    extractRole key m w = .ok c.role := by
  unfold extractRole
  rw [h]
  rfl

theorem validateToken_live (key : String) (v : JwtToken) (m : Int)
    (hs : v.signedWithKey = key) (hlt : m < v.claims.exp) :
    validateToken key m (.jwt v) = true := by
  unfold validateToken isTokenExpired extractExpiration
  rw [extractAllClaims_live key v m hs hlt]
  show (!decide (v.claims.exp < m)) = true
  rw [decide_eq_false (by omega : ¬(v.claims.exp < m))]
  rfl

theorem validateToken_of_error (key : String) (m : Int) (w : Wire) (msg : String)
    (h : extractAllClaims key m w = .error msg) :
    validateToken key m w = false := by
  unfold validateToken isTokenExpired extractExpiration
  rw [h]
  rfl

/-- A bearer request whose token fails to parse: no authentication, the
chain continues, nothing is raised. -/
theorem doFilter_parse_error (key : String) (now : Int) (w : Wire) (msg : String)
    (h : extractAllClaims key now w = .error msg) :
    doFilterInternal key now (.bearer w) =
      { authentication := none, chainContinued := true, raised := false } := by
  unfold doFilterInternal doFilterBody
  dsimp only
  unfold extractEmail
  rw [h]
  rfl

/-- A bearer request whose token parses: the filter outcome as a function
of the subject, validity and role claims. -/
theorem doFilter_parse_ok (key : String) (now : Int) (v : JwtToken)
    (h : extractAllClaims key now (.jwt v) = .ok v.claims) :
    doFilterInternal key now (.bearer (.jwt v)) =
      { authentication :=
          match v.claims.sub with
          | none => none
          | some e =>
            if validateToken key now (.jwt v)
            then some (e, "ROLE_" ++
              (match v.claims.role with | some r => r | none => "null"))
            else none
        chainContinued := true, raised := false } := by
  unfold doFilterInternal doFilterBody
  dsimp only
  rw [extractEmail_of_ok key now _ _ h, extractUserId_of_ok key now _ _ h,
      extractRole_of_ok key now _ _ h]
  cases hsub : v.claims.sub with
  | none => rfl
  | some e =>
    cases hv : validateToken key now (.jwt v) with
    | true => simp
    | false => simp

/-! ## Claims -/

/-- Claim C1: for an unlocked account, a wrong-password login increments
`failedLoginAttempts` by exactly one and locks the account exactly when
the incremented counter reaches 5 (for the reachable counters `≤ 4`,
exactly when it equals 5); a correct-password login resets the counter
to 0.  Consequently, from an unlocked account at counter 0, four wrong
logins leave it unlocked at counter 4 and a fifth locks it. -/
theorem lockout_threshold_on_failed_login
    (pwMatches : String → String → Bool) (key : String) (now : Int)
    (j1 j2 : String) (s : Store) (e pw : String) (u : User)
    (hfind : s e = some u) (hemail : u.email = e)
    (hunlocked : u.accountLocked = false) :
    (pwMatches pw u.passwordHash = false →
      ∃ u', (loginExecute pwMatches key now j1 j2 s e pw).1 e = some u' ∧
        u'.failedLoginAttempts = u.failedLoginAttempts + 1 ∧
        (u'.accountLocked = true ↔ 5 ≤ u.failedLoginAttempts + 1) ∧
        (u.failedLoginAttempts ≤ 4 →
          (u'.accountLocked = true ↔ u.failedLoginAttempts + 1 = 5))) ∧
    (pwMatches pw u.passwordHash = true →
      ∃ u', (loginExecute pwMatches key now j1 j2 s e pw).1 e = some u' ∧
        u'.failedLoginAttempts = 0 ∧ u'.accountLocked = false) ∧
    (u.failedLoginAttempts = 0 → pwMatches pw u.passwordHash = false →
      (∃ v, loginMany pwMatches key now j1 j2 s (List.replicate 4 (e, pw)) e = some v ∧
        v.failedLoginAttempts = 4 ∧ v.accountLocked = false) ∧
      (∃ v, loginMany pwMatches key now j1 j2 s (List.replicate 5 (e, pw)) e = some v ∧
        v.failedLoginAttempts = 5 ∧ v.accountLocked = true)) := by
  refine ⟨?_, ?_, ?_⟩
  · intro hm
    rw [loginExecute_wrong _ _ _ _ _ _ _ _ _ hfind hunlocked hm]
    refine ⟨u.incrementFailedAttempts, ?_, by simp, ?_, ?_⟩
    · rw [show e = u.incrementFailedAttempts.email by simpa using hemail.symm]
      exact saveUser_self _ _
    · rw [incrementFailedAttempts_locked, hunlocked]
      by_cases h5 : 5 ≤ u.failedLoginAttempts + 1 <;> simp [h5]
    · intro h4
      rw [incrementFailedAttempts_locked, hunlocked]
      by_cases h5 : 5 ≤ u.failedLoginAttempts + 1 <;> simp [h5] <;> omega
  · intro hm
    rw [loginExecute_right _ _ _ _ _ _ _ _ _ hfind hunlocked hm]
    refine ⟨u.resetFailedAttempts, ?_, by simp [User.resetFailedAttempts], by simp [User.resetFailedAttempts]⟩
    rw [show e = u.resetFailedAttempts.email by
      simpa [User.resetFailedAttempts] using hemail.symm]
    exact saveUser_self _ _
  · intro hc0 hm
    constructor
    · obtain ⟨v, hv, hvc, hviff⟩ :=
        loginMany_replicate_wrong pwMatches key now j1 j2 e pw 4 s u hfind hemail
          hunlocked hm (by omega) (by omega)
      refine ⟨v, hv, by omega, ?_⟩
      rcases hb : v.accountLocked with _ | _
      · rfl
      · exact absurd (hviff.mp hb) (by omega)
    · obtain ⟨v, hv, hvc, hviff⟩ :=
        loginMany_replicate_wrong pwMatches key now j1 j2 e pw 5 s u hfind hemail
          hunlocked hm (by omega) (by omega)
      exact ⟨v, hv, by omega, hviff.mpr (by omega)⟩

/-- Claim C1 witness: a concrete single-user table with counter 0 — the
wrong-password branch, the correct-password branch and the 4-then-5
scenario all instantiated. -/
theorem lockout_threshold_on_failed_login_witness :
    ∃ v, loginMany (fun p h => p == h) "k" 0 "j1" "j2"
        (saveUser emptyStore
          { id := 1, email := "real@x.com", passwordHash := "secret"
            role := "USER", failedLoginAttempts := 0, accountLocked := false })
        (List.replicate 5 ("real@x.com", "wrong")) "real@x.com" = some v ∧
      v.failedLoginAttempts = 5 ∧ v.accountLocked = true :=
  ((lockout_threshold_on_failed_login (fun p h => p == h) "k" 0 "j1" "j2"
    (saveUser emptyStore
      { id := 1, email := "real@x.com", passwordHash := "secret"
        role := "USER", failedLoginAttempts := 0, accountLocked := false })
    "real@x.com" "wrong"
    { id := 1, email := "real@x.com", passwordHash := "secret"
      role := "USER", failedLoginAttempts := 0, accountLocked := false }
    (by rfl) (by rfl) (by rfl)).2.2 (by rfl) (by rfl)).2

/-- Claim C2: a locked account rejects every login attempt with the
lockout error without consulting the password (the result is the same
for every password-matching oracle), the table is unchanged, and no
sequence of login operations ever clears the lock — while the explicit
`unlockAccount` operation clears both the lock and the counter. -/
theorem locked_account_login_terminal
    (pwMatches : String → String → Bool) (key : String) (now : Int)
    (j1 j2 : String) (s : Store) (e : String) (u : User)
    (hfind : s e = some u) (hlocked : u.accountLocked = true) :
    (∀ pw, loginExecute pwMatches key now j1 j2 s e pw =
      (s, .error "Account is locked due to too many failed login attempts. Please contact support.")) ∧
    (∀ pwMatches' pw, loginExecute pwMatches key now j1 j2 s e pw =
      loginExecute pwMatches' key now j1 j2 s e pw) ∧
    (StoreWf s → ∀ attempts : List (String × String),
      loginMany pwMatches key now j1 j2 s attempts e = some u) ∧
    (unlockAccount u).accountLocked = false ∧
    (unlockAccount u).failedLoginAttempts = 0 := by
  refine ⟨?_, ?_, ?_, rfl, rfl⟩
  · intro pw
    exact loginExecute_locked _ _ _ _ _ _ _ _ _ hfind hlocked
  · intro pwMatches' pw
    rw [loginExecute_locked _ _ _ _ _ _ _ _ _ hfind hlocked,
        loginExecute_locked _ _ _ _ _ _ _ _ _ hfind hlocked]
  · intro hwf attempts
    exact loginMany_locked_fixed _ _ _ _ _ attempts s u e hwf hfind hlocked

/-- Claim C2 witness: a concrete locked account survives a concrete
burst of login attempts (including one with the correct password)
unchanged. -/
theorem locked_account_login_terminal_witness :
    loginMany (fun p h => p == h) "k" 0 "j1" "j2"
      (saveUser emptyStore
        { id := 1, email := "real@x.com", passwordHash := "secret"
          role := "USER", failedLoginAttempts := 5, accountLocked := true })
      [("real@x.com", "wrong"), ("real@x.com", "secret"), ("other@x.com", "x")]
      "real@x.com" =
      some { id := 1, email := "real@x.com", passwordHash := "secret"
             role := "USER", failedLoginAttempts := 5, accountLocked := true } :=
  (locked_account_login_terminal (fun p h => p == h) "k" 0 "j1" "j2"
    (saveUser emptyStore
      { id := 1, email := "real@x.com", passwordHash := "secret"
        role := "USER", failedLoginAttempts := 5, accountLocked := true })
    "real@x.com"
    { id := 1, email := "real@x.com", passwordHash := "secret"
      role := "USER", failedLoginAttempts := 5, accountLocked := true }
    (by rfl) (by rfl)).2.2.1
    (StoreWf_saveUser _ _ StoreWf_emptyStore) _

/-- Claim C3: login with an unknown email and login with a known email
but wrong password (account unlocked) produce the same HTTP error:
status 401 with the identical message "Invalid email or password". -/
theorem login_enumeration_resistant
    (pwMatches : String → String → Bool) (key : String) (now : Int)
    (j1 j2 : String) (s : Store) (e1 pw1 e2 pw2 : String) (u : User)
    (h1 : s e1 = none) (h2 : s e2 = some u)
    (hu : u.accountLocked = false)
    (hm : pwMatches pw2 u.passwordHash = false) :
    loginHttpError pwMatches key now j1 j2 s e1 pw1 = some (401, "Invalid email or password") ∧
    loginHttpError pwMatches key now j1 j2 s e2 pw2 = some (401, "Invalid email or password") ∧
    loginHttpError pwMatches key now j1 j2 s e1 pw1 =
      loginHttpError pwMatches key now j1 j2 s e2 pw2 := by
  have ha : loginHttpError pwMatches key now j1 j2 s e1 pw1 =
      some (401, "Invalid email or password") := by
    unfold loginHttpError
    rw [loginExecute_not_found _ _ _ _ _ _ _ _ h1]
    rfl
  have hb : loginHttpError pwMatches key now j1 j2 s e2 pw2 =
      some (401, "Invalid email or password") := by
    unfold loginHttpError
    rw [loginExecute_wrong _ _ _ _ _ _ _ _ _ h2 hu hm]
    rfl
  exact ⟨ha, hb, ha.trans hb.symm⟩

/-- Claim C3 witness: the spec's own pair of calls — a nonexistent email
and a real email with a wrong password — yield the identical 401. -/
theorem login_enumeration_resistant_witness :
    loginHttpError (fun p h => p == h) "k" 0 "j1" "j2"
      (saveUser emptyStore
        { id := 1, email := "real@x.com", passwordHash := "secret"
          role := "USER", failedLoginAttempts := 0, accountLocked := false })
      "nonexistent@x.com" "anything" =
    loginHttpError (fun p h => p == h) "k" 0 "j1" "j2"
      (saveUser emptyStore
        { id := 1, email := "real@x.com", passwordHash := "secret"
          role := "USER", failedLoginAttempts := 0, accountLocked := false })
      "real@x.com" "wrongpassword" :=
  (login_enumeration_resistant (fun p h => p == h) "k" 0 "j1" "j2"
    (saveUser emptyStore
      { id := 1, email := "real@x.com", passwordHash := "secret"
        role := "USER", failedLoginAttempts := 0, accountLocked := false })
    "nonexistent@x.com" "anything" "real@x.com" "wrongpassword"
    { id := 1, email := "real@x.com", passwordHash := "secret"
      role := "USER", failedLoginAttempts := 0, accountLocked := false }
    (by rfl) (by rfl) (by rfl) (by rfl)).2.2

/-- Claim C4: for a structurally valid, correctly signed token,
validation fails with the "Token has expired" error exactly when
`now ≥ exp`, and succeeds exactly when `now < exp`; for a token whose
expiry is `now + 900s`: validation succeeds at `now + 899s` and fails as
expired at `now + 900s` and `now + 901s`. -/
theorem token_expiry_boundary (key : String) (t : JwtToken) (now : Int)
    (hsig : t.signedWithKey = key) :
    (extractAllClaims key now (.jwt t) = .error "Token has expired" ↔
      t.claims.exp ≤ now) ∧
    (validateToken key now (.jwt t) = true ↔ now < t.claims.exp) ∧
    (∀ userId email role jti,
      validateToken key (now + 899000)
        (.jwt (generateAccessToken key userId email role now jti)) = true ∧
      extractAllClaims key (now + 900000)
        (.jwt (generateAccessToken key userId email role now jti)) =
          .error "Token has expired" ∧
      validateToken key (now + 900000)
        (.jwt (generateAccessToken key userId email role now jti)) = false ∧
      extractAllClaims key (now + 901000)
        (.jwt (generateAccessToken key userId email role now jti)) =
          .error "Token has expired" ∧
      validateToken key (now + 901000)
        (.jwt (generateAccessToken key userId email role now jti)) = false) := by
  have hexpired : ∀ (v : JwtToken) (m : Int), v.signedWithKey = key →
      v.claims.exp ≤ m →
      extractAllClaims key m (.jwt v) = .error "Token has expired" := by
    intro v m hs hle
    simp [extractAllClaims, hs, hle]
  have hok : ∀ (v : JwtToken) (m : Int), v.signedWithKey = key →
      m < v.claims.exp →
      extractAllClaims key m (.jwt v) = .ok v.claims := by
    intro v m hs hlt
    simp [extractAllClaims, hs]
    omega
  have hvalid_ok : ∀ (v : JwtToken) (m : Int), v.signedWithKey = key →
      m < v.claims.exp → validateToken key m (.jwt v) = true := by
    intro v m hs hlt
    unfold validateToken isTokenExpired extractExpiration
    rw [hok v m hs hlt]
    show (!decide (v.claims.exp < m)) = true
    rw [decide_eq_false (by omega : ¬(v.claims.exp < m))]
    rfl
  have hvalid_err : ∀ (w : Wire) (m : Int) (msg : String),
      extractAllClaims key m w = .error msg → validateToken key m w = false := by
    intro w m msg h
    unfold validateToken isTokenExpired extractExpiration
    rw [h]
    rfl
  refine ⟨⟨?_, hexpired t now hsig⟩, ⟨?_, fun h => hvalid_ok t now hsig h⟩, ?_⟩
  · intro h
    by_contra hc
    rw [hok t now hsig (by omega)] at h
    cases h
  · intro h
    by_contra hc
    rw [hvalid_err (.jwt t) now _ (hexpired t now hsig (by omega))] at h
    cases h
  · intro userId email role jti
    have hs : (generateAccessToken key userId email role now jti).signedWithKey = key := rfl
    have hexp : (generateAccessToken key userId email role now jti).claims.exp = now + 900000 := rfl
    refine ⟨?_, ?_, ?_, ?_, ?_⟩
    · exact hvalid_ok _ _ hs (by rw [hexp]; omega)
    · exact hexpired _ _ hs (le_of_eq hexp)
    · exact hvalid_err _ _ _ (hexpired _ _ hs (le_of_eq hexp))
    · exact hexpired _ _ hs (by rw [hexp]; omega)
    · exact hvalid_err _ _ _ (hexpired _ _ hs (by rw [hexp]; omega))

/-- Claim C4 witness: the boundary at concrete times — a token issued at
time 0 with key "k". -/
theorem token_expiry_boundary_witness :
    validateToken "k" 899000 (.jwt (generateAccessToken "k" 42 "a@b.com" "USER" 0 "j")) = true ∧
    extractAllClaims "k" 900000 (.jwt (generateAccessToken "k" 42 "a@b.com" "USER" 0 "j")) =
      .error "Token has expired" ∧
    validateToken "k" 901000 (.jwt (generateAccessToken "k" 42 "a@b.com" "USER" 0 "j")) = false := by
  obtain ⟨h1, h2, _, _, h5⟩ :=
    (token_expiry_boundary "k" (generateAccessToken "k" 42 "a@b.com" "USER" 0 "j") 0 rfl).2.2
      42 "a@b.com" "USER" "j"
  exact ⟨h1, h2, h5⟩

/-- Claim C5 counterexample: `"Aa1@abc#"` is at least 8 characters long
and contains a lowercase letter, an uppercase letter, a digit and a
character of the special set `@$!%*?&` — the spec's four classes — yet
`PASSWORD_PATTERN` rejects it, because `#` falls outside the pattern's
restricted alphabet `[A-Za-z\d@$!%*?&]`. -/
theorem password_policy_alphabet_counterexample :
    specValidateStrength "Aa1@abc#" = true ∧
    passwordPatternMatches "Aa1@abc#" = false := by
  constructor <;> decide

/-- Claim C5 amended: the password check accepts exactly the passwords
that are at least 8 characters long, drawn ENTIRELY from the alphabet of
letters, digits and `@$!%*?&`, and containing at least one lowercase
letter, one uppercase letter, one digit and one special character. -/
theorem password_policy_characterization (p : String) :
    passwordPatternMatches p = true ↔
      (8 ≤ p.data.length ∧
       (∀ c ∈ p.data, passwordAllowedChar c = true) ∧
       (∃ c ∈ p.data, c.isLower = true) ∧
       (∃ c ∈ p.data, c.isUpper = true) ∧
       (∃ c ∈ p.data, c.isDigit = true) ∧
       (∃ c ∈ p.data, passwordSpecialChar c = true)) := by
  simp [passwordPatternMatches, List.all_eq_true, List.any_eq_true,
        and_assoc]

/-- Claim C9: claim extraction round-trips issuance — for an access
token: userId, role, type `"access"` and the subject email come back
exactly; for a refresh token: type is `"refresh"` and there is NO role
claim. -/
theorem claims_round_trip (key : String) (userId : Int)
    (email role : String) (now : Int) (jti : String) :
    extractUserId key now (.jwt (generateAccessToken key userId email role now jti)) =
      .ok (some userId) ∧
    extractRole key now (.jwt (generateAccessToken key userId email role now jti)) =
      .ok (some role) ∧
    extractTokenType key now (.jwt (generateAccessToken key userId email role now jti)) =
      .ok (some "access") ∧
    extractEmail key now (.jwt (generateAccessToken key userId email role now jti)) =
      .ok (some email) ∧
    extractTokenType key now (.jwt (generateRefreshToken key userId email now jti)) =
      .ok (some "refresh") ∧
    extractRole key now (.jwt (generateRefreshToken key userId email now jti)) =
      .ok none := by
  have hacc : extractAllClaims key now
      (.jwt (generateAccessToken key userId email role now jti)) =
      .ok (generateAccessToken key userId email role now jti).claims := by
    simp [extractAllClaims, generateAccessToken, createToken, accessTokenExpiry]
  have href : extractAllClaims key now
      (.jwt (generateRefreshToken key userId email now jti)) =
      .ok (generateRefreshToken key userId email now jti).claims := by
    simp [extractAllClaims, generateRefreshToken, createToken, refreshTokenExpiry]
  refine ⟨?_, ?_, ?_, ?_, ?_, ?_⟩
  · rw [extractUserId, hacc]; rfl
  · rw [extractRole, hacc]; rfl
  · rw [extractTokenType, hacc]; rfl
  · rw [extractEmail, hacc]; rfl
  · rw [extractTokenType, href]; rfl
  · rw [extractRole, href]; rfl

/-- Claim C6 counterexample: `"alice@localhost"` is NOT of the
`local@domain.tld` shape the spec calls syntactically valid, yet
registering it does not produce the claimed 400 validation error: it
passes the lenient DTO `@Email` bean validation, then fails the use
case's stricter `EMAIL_PATTERN` check, which throws
`UnauthorizedException` — mapped by the global handler to HTTP 401
"Invalid email format". -/
theorem register_malformed_email_401_counterexample :
    emailPatternMatches "alice@localhost" = false ∧
    registerRequestValid "alice@localhost" "Aa1@aaaa" = true ∧
    (registerHttp (fun s => s) "k" 0 1 "j1" "j2" emptyStore
      "alice@localhost" "Aa1@aaaa").2 = (401, "Invalid email format") := by
  refine ⟨by decide, by decide, by decide⟩

/-- Claim C6 amended: a register request failing DTO bean validation
(blank or bean-invalid email; blank, short or weak password) is mapped
to 400; a request passing bean validation whose email is not of the
`local@domain.tld` shape of `EMAIL_PATTERN` fails with 401
"Invalid email format"; a duplicate email fails with 401
"Email already registered"; only when all checks pass is the account
created (role USER, counter 0, unlocked) with 200. -/
theorem register_outcome_characterization (encode : String → String)
    (key : String) (now : Int) (newId : Int) (j1 j2 : String)
    (store : Store) (email pw : String) :
    (registerRequestValid email pw = false →
      (registerHttp encode key now newId j1 j2 store email pw).2 =
        (400, "Validation failed")) ∧
    (registerRequestValid email pw = true → emailPatternMatches email = false →
      (registerHttp encode key now newId j1 j2 store email pw).2 =
        (401, "Invalid email format")) ∧
    (registerRequestValid email pw = true → emailPatternMatches email = true →
      (store email).isSome = true →
      (registerHttp encode key now newId j1 j2 store email pw).2 =
        (401, "Email already registered")) ∧
    (registerRequestValid email pw = true → emailPatternMatches email = true →
      store email = none →
      (registerHttp encode key now newId j1 j2 store email pw).2 =
        (200, "Registration successful") ∧
      ∃ u, (registerHttp encode key now newId j1 j2 store email pw).1 email = some u ∧
        u.email = email ∧ u.role = "USER" ∧ u.failedLoginAttempts = 0 ∧
        u.accountLocked = false ∧ u.passwordHash = encode pw) := by
  refine ⟨?_, ?_, ?_, ?_⟩
  · intro hv
    simp [registerHttp, hv]
  · intro hv hm
    have hp : passwordPatternMatches pw = true := by
      simp only [registerRequestValid, Bool.and_eq_true] at hv
      exact hv.2
    simp [registerHttp, hv, registerExecute, hm, hp, handleUnauthorized]
  · intro hv hm hex
    have hp : passwordPatternMatches pw = true := by
      simp only [registerRequestValid, Bool.and_eq_true] at hv
      exact hv.2
    simp [registerHttp, hv, registerExecute, hm, hp, hex, handleUnauthorized]
  · intro hv hm hnone
    have hp : passwordPatternMatches pw = true := by
      simp only [registerRequestValid, Bool.and_eq_true] at hv
      exact hv.2
    constructor
    · simp [registerHttp, hv, registerExecute, hm, hp, hnone]
    · refine ⟨{ id := newId, email := email, passwordHash := encode pw
                role := "USER", failedLoginAttempts := 0, accountLocked := false },
              ?_, rfl, rfl, rfl, rfl, rfl⟩
      simp [registerHttp, hv, registerExecute, hm, hp, hnone, saveUser]

/-- Claim C6 amended witness: the four outcomes at concrete inputs —
a weak password (400), a TLD-less email (401 "Invalid email format"),
a duplicate email (401 "Email already registered") and a fresh valid
registration (200). -/
theorem register_outcome_characterization_witness :
    (registerHttp (fun s => s) "k" 0 1 "j1" "j2" emptyStore
      "alice@example.com" "weakpass").2 = (400, "Validation failed") ∧
    (registerHttp (fun s => s) "k" 0 1 "j1" "j2" emptyStore
      "alice@localhost" "Aa1@aaaa").2 = (401, "Invalid email format") ∧
    (registerHttp (fun s => s) "k" 0 1 "j1" "j2"
      (saveUser emptyStore
        { id := 1, email := "alice@example.com", passwordHash := "h"
          role := "USER", failedLoginAttempts := 0, accountLocked := false })
      "alice@example.com" "Aa1@aaaa").2 = (401, "Email already registered") ∧
    (registerHttp (fun s => s) "k" 0 1 "j1" "j2" emptyStore
      "alice@example.com" "Aa1@aaaa").2 = (200, "Registration successful") := by
  refine ⟨?_, ?_, ?_, ?_⟩
  · exact (register_outcome_characterization (fun s => s) "k" 0 1 "j1" "j2"
      emptyStore "alice@example.com" "weakpass").1 (by decide)
  · exact (register_outcome_characterization (fun s => s) "k" 0 1 "j1" "j2"
      emptyStore "alice@localhost" "Aa1@aaaa").2.1 (by decide) (by decide)
  · exact (register_outcome_characterization (fun s => s) "k" 0 1 "j1" "j2"
      (saveUser emptyStore
        { id := 1, email := "alice@example.com", passwordHash := "h"
          role := "USER", failedLoginAttempts := 0, accountLocked := false })
      "alice@example.com" "Aa1@aaaa").2.2.1 (by decide) (by decide) (by decide)
  · exact ((register_outcome_characterization (fun s => s) "k" 0 1 "j1" "j2"
      emptyStore "alice@example.com" "Aa1@aaaa").2.2.2 (by decide) (by decide)
      (by rfl)).1

/-- Claim C7: the authentication filter never rejects a request and
never raises: for every header it continues the chain with nothing
thrown, and for every bearer token that fails validation (malformed,
bad signature or expired) it simply establishes no identity. -/
theorem filter_fail_open (key : String) (now : Int) :
    (∀ h : AuthHeader, (doFilterInternal key now h).chainContinued = true ∧
      (doFilterInternal key now h).raised = false) ∧
    (∀ (w : Wire) (msg : String), extractAllClaims key now w = .error msg →
      doFilterInternal key now (.bearer w) =
        { authentication := none, chainContinued := true, raised := false }) := by
  constructor
  · intro h
    cases h with
    | missing => exact ⟨rfl, rfl⟩
    | notBearer v => exact ⟨rfl, rfl⟩
    | bearer w =>
      unfold doFilterInternal
      dsimp only
      cases doFilterBody key now w <;> exact ⟨rfl, rfl⟩
  · intro w msg herr
    exact doFilter_parse_error key now w msg herr

/-- Claim C7 witness: a malformed bearer token on a concrete request —
chain continued, nothing raised, no identity. -/
theorem filter_fail_open_witness :
    extractAllClaims "k" 0 (.garbage "not-a-jwt") = .error "Invalid token format" ∧
    doFilterInternal "k" 0 (.bearer (.garbage "not-a-jwt")) =
      { authentication := none, chainContinued := true, raised := false } := by
  exact ⟨rfl, (filter_fail_open "k" 0).2 (.garbage "not-a-jwt") "Invalid token format" rfl⟩

/-- Claim C8: the filter never consults the token's `type` claim — its
outcome is unchanged under any rewrite of that claim — and a validly
signed, unexpired REFRESH token authenticates the request (with
authority string `"ROLE_null"`, since a refresh token carries no role
claim). -/
theorem filter_ignores_token_type (key : String) (now : Int) :
    (∀ (t : JwtToken) (x : Option String),
      doFilterInternal key now
        (.bearer (.jwt { t with claims := { t.claims with type := x } })) =
      doFilterInternal key now (.bearer (.jwt t))) ∧
    (∀ (userId : Int) (email : String) (issuedAt : Int) (jti : String),
      now < issuedAt + refreshTokenExpiry →
      (doFilterInternal key now
        (.bearer (.jwt (generateRefreshToken key userId email issuedAt jti)))).authentication =
        some (email, "ROLE_null")) := by
  constructor
  · intro t x
    by_cases hs : t.signedWithKey = key
    · by_cases he : t.claims.exp ≤ now
      · rw [doFilter_parse_error key now _ _
              (extractAllClaims_expired key
                { t with claims := { t.claims with type := x } } now hs he),
            doFilter_parse_error key now _ _ (extractAllClaims_expired key t now hs he)]
      · have hlt : now < t.claims.exp := by omega
        rw [doFilter_parse_ok key now { t with claims := { t.claims with type := x } }
              (extractAllClaims_live key _ now hs hlt),
            doFilter_parse_ok key now t (extractAllClaims_live key t now hs hlt),
            validateToken_live key { t with claims := { t.claims with type := x } } now hs hlt,
            validateToken_live key t now hs hlt]
    · have hs2 : ({ t with claims := { t.claims with type := x } } : JwtToken).signedWithKey ≠ key := hs
      rw [doFilter_parse_error key now _ _ (extractAllClaims_badsig key _ now hs2),
          doFilter_parse_error key now _ _ (extractAllClaims_badsig key t now hs)]
  · intro userId email issuedAt jti hlt
    rw [doFilter_parse_ok key now (generateRefreshToken key userId email issuedAt jti)
          (extractAllClaims_live key _ now rfl hlt),
        validateToken_live key (generateRefreshToken key userId email issuedAt jti) now rfl hlt]
    rfl

/-- Claim C8 witness: a concrete refresh token, issued at time 0 and
presented at time 10, authenticates the request. -/
theorem filter_ignores_token_type_witness :
    (doFilterInternal "k" 10
      (.bearer (.jwt (generateRefreshToken "k" 42 "a@b.com" 0 "j")))).authentication =
      some ("a@b.com", "ROLE_null") := by
  exact (filter_ignores_token_type "k" 10).2 42 "a@b.com" 0 "j" (by decide)

/-- Claim C10: every user table reachable from the empty table through
register and login operations satisfies
`0 ≤ failedLoginAttempts ≤ 5` with the account locked exactly when the
counter equals 5 — the counter never exceeds the lockout threshold. -/
theorem lockout_counter_invariant (pwMatches : String → String → Bool)
    (encode : String → String) (key : String) (now : Int)
    (ops : List AuthOp) :
    LockoutInv (runAuthOps pwMatches encode key now emptyStore ops) :=
  (runAuthOps_wf_inv pwMatches encode key now ops emptyStore
    StoreWf_emptyStore LockoutInv_emptyStore).2

end CokMall
